import Mathlib

/-!
Shallow embedding of the Friendliai repository (files
src/q3_benchmark/metrics.py, src/q3_benchmark/benchmark.py,
src/q1_decorator/validator.py) and proofs about the claims of its
specification.

Python floats are modelled as rationals, Python ints as integers or
naturals, and Python exceptions as an explicit `Except` error channel:
a Python function that can raise is embedded as a function into
`Except PyError _`, with `pydiv` modelling the Python `/` operator
(raising ZeroDivisionError on a zero denominator).  Network input is
abstracted: the lines delivered by a streamed response, together with
the perf_counter timestamp at which each is processed, are an explicit
argument; exceptions raised by the transport are an explicit constructor.

In the validator embedding, Python runtime values are the inductive
`PyVal`; string content of TypeError messages is kept close to the
source f-strings, except that value reprs and quote characters are
elided (no claim depends on message text).
-/

namespace Bench

/-- Python exceptions that the benchmark code can raise. -/
inductive PyError where
  | zeroDivision        -- ZeroDivisionError raised by the / operator
  | valueError          -- ValueError, raised by range with step 0
  | indexError          -- IndexError, raised by random.choice on an empty list
  deriving DecidableEq, Repr

/-- Python float division: raises ZeroDivisionError on a zero denominator. -/
def pydiv (a b : ℚ) : Except PyError ℚ :=
  if b = 0 then .error .zeroDivision else .ok (a / b)

/-- The RequestMetrics dataclass of metrics.py (one per request attempt). -/
structure RequestMetrics where
  ttft : ℚ
  latency : ℚ
  tokens_generated : ℤ
  success : Bool
  error : Option String
  deriving DecidableEq, Repr

/-- The AggregatedMetrics dataclass of metrics.py (one per concurrency level). -/
structure AggregatedMetrics where
  concurrency : ℕ
  avg_ttft : ℚ
  avg_latency : ℚ
  throughput : ℚ
  total_tokens : ℤ
  token_throughput : ℚ
  success_rate : ℚ
  num_requests : ℕ
  deriving DecidableEq, Repr

/-- calculate_aggregated_metrics of metrics.py, lines 167-219.
Filters the successful records; on an empty success list returns the all-zero
record; otherwise computes the averages and throughputs with Python division
(modelled by `pydiv`, so a zero denominator surfaces as ZeroDivisionError,
exactly as in the source, which performs no validation of total_duration). -/
def calculate_aggregated_metrics (metrics_list : List RequestMetrics)
    (concurrency : ℕ) (total_duration : ℚ) : Except PyError AggregatedMetrics :=
  let successful := metrics_list.filter (fun m => m.success)
  if successful.isEmpty then
    .ok { concurrency := concurrency, avg_ttft := 0, avg_latency := 0,
          throughput := 0, total_tokens := 0, token_throughput := 0,
          success_rate := 0, num_requests := metrics_list.length }
  else do
    let avg_ttft ← pydiv (successful.map (fun m => m.ttft)).sum successful.length
    let avg_latency ← pydiv (successful.map (fun m => m.latency)).sum successful.length
    let total_tokens : ℤ := (successful.map (fun m => m.tokens_generated)).sum
    let throughput ← pydiv successful.length total_duration
    let token_throughput ← pydiv (total_tokens : ℚ) total_duration
    let rate ← pydiv successful.length metrics_list.length
    .ok { concurrency := concurrency, avg_ttft := avg_ttft,
          avg_latency := avg_latency, throughput := throughput,
          total_tokens := total_tokens, token_throughput := token_throughput,
          success_rate := rate * 100, num_requests := metrics_list.length }

/-- The batch sizes produced by the loop
for batch_start in range(0, num_requests, concurrency) with
batch_size = min(concurrency, num_requests - batch_start) in
run_concurrent_requests (metrics.py lines 131-132): each iteration issues
min C remaining requests until none remain.  Only meaningful for C ≥ 1
(the Python range with step 0 raises ValueError; handled in the caller). -/
def waveSizes (C N : ℕ) : List ℕ :=
  if h : C = 0 ∨ N = 0 then []
  else min C N :: waveSizes C (N - min C N)
  termination_by N
  decreasing_by
    have hC : 0 < C := Nat.pos_of_ne_zero (fun hc => h (Or.inl hc))
    have hN : 0 < N := Nat.pos_of_ne_zero (fun hn => h (Or.inr hn))
    have : 0 < min C N := lt_min hC hN
    omega

/-- The records collected across the waves: the i-th request slot overall is
resolved by the abstract outcome function `result` (which stands for whatever
send_single_request returns for that slot — always exactly one
RequestMetrics, success or failure). -/
def runWaves (result : ℕ → RequestMetrics) (issued : ℕ) :
    List ℕ → List RequestMetrics
  | [] => []
  | b :: rest =>
      (List.range b).map (fun i => result (issued + i)) ++
        runWaves result (issued + b) rest

/-- run_concurrent_requests of metrics.py, lines 100-151, with the network
abstracted into the per-slot outcome function `result`.  A zero concurrency
makes range(0, num_requests, 0) raise ValueError; an empty prompt corpus
makes random.choice(prompts) raise IndexError as soon as the first wave
builds its tasks (i.e. whenever at least one request is to be issued).
Otherwise the waves run in sequence and their records are concatenated. -/
def run_concurrent_requests (prompts : List String) (concurrency num_requests : ℕ)
    (result : ℕ → RequestMetrics) : Except PyError (List RequestMetrics) :=
  if concurrency = 0 then .error .valueError
  else if prompts = [] ∧ 0 < num_requests then .error .indexError
  else .ok (runWaves result 0 (waveSizes concurrency num_requests))

/-- Whitespace characters removed by the Python str.strip (ASCII range). -/
def pyIsSpace (c : Char) : Bool :=
  c = ' ' || c = '\t' || c = '\n' || c = '\r' || c = '\x0b' || c = '\x0c'

/-- Python str.strip(): removes leading and trailing whitespace. -/
def pyStrip (s : String) : String :=
  String.mk (((s.data.dropWhile pyIsSpace).reverse.dropWhile pyIsSpace).reverse)

/-- Character-list test underlying the Python str.startswith. -/
def listStartsWith : List Char → List Char → Bool
  | [], _ => true
  | _ :: _, [] => false
  | p :: ps, c :: cs => p == c && listStartsWith ps cs

/-- Python s.startswith(pat). -/
def pyStartsWith (s pat : String) : Bool :=
  listStartsWith pat.data s.data

/-- Python slicing s[n:] (character based). -/
def pyDrop (s : String) (n : ℕ) : String :=
  String.mk (s.data.drop n)

/-- One line of a streamed response body together with the perf_counter
timestamp at which the loop body of send_single_request processes it. -/
structure StreamLine where
  text : String
  time : ℚ
  deriving DecidableEq, Repr

/-- The streaming read loop of send_single_request (metrics.py lines 58-77):
skips blank and comment lines, stops at the data: [DONE] terminator, and for
every other data: line records the first-token timestamp (once) and counts
one generated token.  Returns the final (first_token_time, tokens_generated)
pair. -/
def streamLoop : List StreamLine → Option ℚ → ℕ → Option ℚ × ℕ
  | [], first_token_time, tokens_generated => (first_token_time, tokens_generated)
  | l :: rest, first_token_time, tokens_generated =>
    let line := pyStrip l.text
    if line == "" || pyStartsWith line ":" then
      streamLoop rest first_token_time tokens_generated
    else if pyStartsWith line "data: " then
      let data := pyDrop line 6
      if data == "[DONE]" then (first_token_time, tokens_generated)
      else
        streamLoop rest
          (match first_token_time with
           | none => some l.time
           | some t => some t)
          (tokens_generated + 1)
    else streamLoop rest first_token_time tokens_generated

/-- How reading the response body ends: either the line iteration finishes
(normal completion, possibly via the terminator), or an exception is raised
mid-stream after some lines were already processed. -/
inductive StreamRead where
  | ok (lines : List StreamLine)
  | exn (linesRead : List StreamLine) (msg : String)
  deriving DecidableEq, Repr

/-- The result of session.post: either the request itself raises, or a
response arrives with a status, an error body (read only on non-200), and a
body stream. -/
inductive PostResult where
  | exn (msg : String)
  | resp (status : ℕ) (body : String) (stream : StreamRead)
  deriving DecidableEq, Repr

/-- send_single_request of metrics.py, lines 23-97, with the transport
abstracted into a PostResult and the timestamps taken as arguments
(start_time is read before dispatch, end_time after the loop).  Mirrors the
source: non-200 status returns the HTTP-error record; any exception is
caught and returns the zeroed failure record; otherwise the stream loop runs
and ttft falls back to 0 when first_token_time is falsy — which in Python is
both None and the float 0.0, modelled here by the inner t = 0 test. -/
def send_single_request (start_time end_time : ℚ) : PostResult → RequestMetrics
  | .exn msg => { ttft := 0, latency := 0, tokens_generated := 0,
                  success := false, error := some msg }
  | .resp status body stream =>
    if status ≠ 200 then
      { ttft := 0, latency := 0, tokens_generated := 0, success := false,
        error := some ("HTTP " ++ toString status ++ ": " ++ body) }
    else
      match stream with
      | .exn _ msg => { ttft := 0, latency := 0, tokens_generated := 0,
                        success := false, error := some msg }
      | .ok lines =>
        let r := streamLoop lines none 0
        let ttft : ℚ := match r.1 with
          | none => 0
          | some t => if t = 0 then 0 else t - start_time
        { ttft := ttft, latency := end_time - start_time,
          tokens_generated := (r.2 : ℤ), success := true, error := none }

/-- A stream-data line: carries the data: marker and its payload is not the
[DONE] terminator (claim-side predicate for counting generated tokens). -/
def isPayloadLine (t : String) : Bool :=
  pyStartsWith (pyStrip t) "data: " && (pyDrop (pyStrip t) 6 != "[DONE]")

/-- A terminator line: data: marker whose payload is [DONE]. -/
def isDoneLine (t : String) : Bool :=
  pyStartsWith (pyStrip t) "data: " && (pyDrop (pyStrip t) 6 == "[DONE]")

/-- benchmark_engine inner loop (benchmark.py lines 66-89): for each
concurrency level run the batch, measure its duration (abstracted into
`dur`), aggregate, and record the pair.  The Python dict keyed by the level
is modelled as the association list in insertion order (identical to the
dict when the configured levels are distinct). -/
def benchLevels (prompts : List String) (rpl : ℕ) (res : ℕ → ℕ → RequestMetrics)
    (dur : ℕ → ℚ) : List ℕ → Except PyError (List (ℕ × AggregatedMetrics))
  | [] => .ok []
  | c :: rest => do
      let ms ← run_concurrent_requests prompts c rpl (res c)
      let agg ← calculate_aggregated_metrics ms c (dur c)
      let tbl ← benchLevels prompts rpl res dur rest
      pure ((c, agg) :: tbl)

/-- benchmark_engine of benchmark.py, lines 26-97: a warmup batch at
concurrency 1 whose metrics are discarded, then one aggregated entry per
configured concurrency level.  `wres` resolves the warmup request slots,
`res c i` the i-th slot of the batch at level c, `dur c` is the wall-clock
duration measured around the batch at level c. -/
def benchmark_engine (prompts : List String) (levels : List ℕ) (rpl warmup : ℕ)
    (wres : ℕ → RequestMetrics) (res : ℕ → ℕ → RequestMetrics) (dur : ℕ → ℚ) :
    Except PyError (List (ℕ × AggregatedMetrics)) := do
  let _ ← run_concurrent_requests prompts 1 warmup wres
  benchLevels prompts rpl res dur levels

end Bench

namespace Valid

/-- Python runtime values, as far as the validator discriminates them. -/
inductive PyVal where
  | none
  | bool (b : Bool)
  | int (n : ℤ)
  | str (s : String)
  | float (q : ℚ)
  | dict (entries : List (PyVal × PyVal))

/-- The Python type name of a value, as used in the TypeError messages. -/
def typeName : PyVal → String
  | .none => "NoneType"
  | .bool _ => "bool"
  | .int _ => "int"
  | .str _ => "str"
  | .float _ => "float"
  | .dict _ => "dict"

/-- The per-entry loop of validate_value (validator.py lines 27-45): for each
key/value pair in order, reject a non-str key, then a bool value (isinstance
checks bool before int because bool is a subclass of int), then a non-int
value. -/
def validateEntries (param_name : String) : List (PyVal × PyVal) → Except String Unit
  | [] => .ok ()
  | (key, val) :: rest =>
    match key with
    | .str k =>
      match val with
      | .bool _ =>
        .error ("Parameter " ++ param_name ++ " expected dict[str, int], but key "
          ++ k ++ " has value of type bool (bool is not allowed, use int)")
      | .int _ => validateEntries param_name rest
      | v =>
        .error ("Parameter " ++ param_name ++ " expected dict[str, int], but key "
          ++ k ++ " has value of type " ++ typeName v)
    | k =>
      .error ("Parameter " ++ param_name ++ " expected dict[str,int], but key is "
        ++ typeName k ++ ", not str")

/-- validate_value of validator.py, lines 14-45: rejects a non-dict value,
then checks every entry. -/
def validate_value (value : PyVal) (param_name : String) : Except String Unit :=
  match value with
  | .dict entries => validateEntries param_name entries
  | v =>
    .error ("Parameter " ++ param_name ++ " expected dict[str,int] got " ++ typeName v)

/-- One declared parameter of the wrapped function, as the decorator sees it
through inspect: its name, whether its annotation is dict[str,int], and its
declared default (`Option.none` models the inspect.Parameter.empty sentinel,
i.e. no default; `some v` a declared default value v). -/
structure Param where
  name : String
  isDictStrIntHint : Bool
  default : Option PyVal

/-- _validate_arguments of validator.py, lines 47-69, applied to a call whose
arguments have been bound and completed with defaults (sig.bind +
apply_defaults): each parameter annotated dict[str,int] has its bound value
validated, except that a None value is allowed through when the declared
default of that parameter is literally None. -/
def _validate_arguments : List (Param × PyVal) → Except String Unit
  | [] => .ok ()
  | (p, value) :: rest =>
    if p.isDictStrIntHint then
      match value, p.default with
      | .none, some .none => _validate_arguments rest
      | _, _ =>
        match validate_value value p.name with
        | .error e => .error e
        | .ok _ => _validate_arguments rest
    else _validate_arguments rest

/-- The wrapper installed by validate_dict_str_int (validator.py lines
71-88): validate first, and only on success invoke the wrapped function with
the arguments unchanged (the sync and async wrappers are identical up to
await).  The wrapped function is abstracted as a function on the list of
bound argument values. -/
def validate_dict_str_int (f : List PyVal → PyVal)
    (bound : List (Param × PyVal)) : Except String PyVal :=
  match _validate_arguments bound with
  | .error e => .error e
  | .ok _ => .ok (f (bound.map Prod.snd))

/-- Claim-side predicate: the value is a mapping whose keys are all strings
and whose values are all non-bool integers. -/
def isValidDictStrInt : PyVal → Bool
  | .dict entries =>
      entries.all (fun kv =>
        match kv with
        | (.str _, .int _) => true
        | _ => false)
  | _ => false

/-- Claim-side predicate on a bound call: every parameter annotated
dict[str,int] carries either a proper string-to-int mapping, or the None
value when the declared default of that parameter is None. -/
def argsOk (bound : List (Param × PyVal)) : Prop :=
  ∀ p v, (p, v) ∈ bound → p.isDictStrIntHint = true →
    (v = PyVal.none ∧ p.default = some PyVal.none) ∨ isValidDictStrInt v = true

end Valid

namespace Bench

lemma filter_success_ne_nil {ms : List RequestMetrics}
    (h : ∃ m ∈ ms, m.success) : ms.filter (fun m => m.success) ≠ [] := by
  obtain ⟨m, hm, hs⟩ := h
  intro hnil
  have : m ∈ ms.filter (fun m => m.success) := by
    simp [List.mem_filter, hm, hs]
  simp [hnil] at this

lemma filter_length_le (ms : List RequestMetrics) :
    (ms.filter (fun m => m.success)).length ≤ ms.length :=
  List.length_filter_le _ _

lemma except_bind_ok {α β : Type} (a : α) (f : α → Except PyError β) :
    (Except.ok a : Except PyError α) >>= f = f a := rfl

lemma except_bind_error {α β : Type} (e : PyError) (f : α → Except PyError β) :
    (Except.error e : Except PyError α) >>= f = Except.error e := rfl

lemma pydiv_ok {a b : ℚ} (hb : b ≠ 0) : pydiv a b = .ok (a / b) := by
  simp [pydiv, hb]

lemma waveSizes_sum {C : ℕ} (hC : 0 < C) : ∀ N, (waveSizes C N).sum = N := by
  intro N
  induction N using Nat.strong_induction_on with
  | _ N ih =>
    rw [waveSizes]
    rcases Nat.eq_zero_or_pos N with hN | hN
    · simp [hN]
    · have hcond : ¬ (C = 0 ∨ N = 0) := by omega
      rw [dif_neg hcond]
      have hmin : 0 < min C N := lt_min hC hN
      have hlt : N - min C N < N := by omega
      rw [List.sum_cons, ih _ hlt]
      omega

lemma waveSizes_getD {C : ℕ} (hC : 0 < C) :
    ∀ N k, (waveSizes C N).getD k 0 =
      min C (N - ((waveSizes C N).take k).sum) := by
  intro N
  induction N using Nat.strong_induction_on with
  | _ N ih =>
    intro k
    rcases Nat.eq_zero_or_pos N with hN | hN
    · subst hN
      rw [waveSizes, dif_pos (Or.inr rfl)]
      simp
    · have hcond : ¬ (C = 0 ∨ N = 0) := by omega
      have hEq : waveSizes C N = min C N :: waveSizes C (N - min C N) := by
        rw [waveSizes, dif_neg hcond]
      have hmin : 0 < min C N := lt_min hC hN
      rw [hEq]
      match k with
      | 0 => simp
      | k + 1 =>
        simp only [List.getD_cons_succ, List.take_succ_cons, List.sum_cons]
        rw [ih _ (by omega)]
        congr 1
        omega

lemma runWaves_length (result : ℕ → RequestMetrics) :
    ∀ sizes issued, (runWaves result issued sizes).length = sizes.sum := by
  intro sizes
  induction sizes with
  | nil => intro issued; simp [runWaves]
  | cons b rest ih =>
    intro issued
    simp [runWaves, ih, List.sum_cons]

lemma run_concurrent_ok {prompts : List String} {C : ℕ} (N : ℕ)
    (result : ℕ → RequestMetrics) (hC : 1 ≤ C) (hp : prompts ≠ []) :
    run_concurrent_requests prompts C N result =
      .ok (runWaves result 0 (waveSizes C N)) := by
  unfold run_concurrent_requests
  rw [if_neg (by omega), if_neg (by simp [hp])]

lemma not_data_of_empty : pyStartsWith "" "data: " = false := rfl

lemma not_data_of_colon {s : String} (h : pyStartsWith s ":" = true) :
    pyStartsWith s "data: " = false := by
  unfold pyStartsWith at h ⊢
  have hc : (":" : String).data = [':'] := rfl
  have hd : ("data: " : String).data = ['d', 'a', 't', 'a', ':', ' '] := rfl
  rw [hc] at h
  rw [hd]
  cases hs : s.data with
  | nil => rw [hs] at h; simp [listStartsWith] at h
  | cons c cs =>
    rw [hs] at h
    simp only [listStartsWith, Bool.and_eq_true, beq_iff_eq] at h
    simp [listStartsWith, ← h.1]

lemma skip_line_not_data {t : String}
    (h : (pyStrip t == "" || pyStartsWith (pyStrip t) ":") = true) :
    pyStartsWith (pyStrip t) "data: " = false := by
  by_cases h1 : pyStrip t = ""
  · rw [h1]
    exact not_data_of_empty
  · have h2 : pyStartsWith (pyStrip t) ":" = true := by
      simp only [Bool.or_eq_true, beq_iff_eq] at h
      tauto
    exact not_data_of_colon h2

/-- The stream loop, run on any line list with any accumulator state, stops
at the first terminator line; its first-token time is the time of the first
payload line (if the accumulator was still empty) and it adds one token per
payload line among the lines before the terminator. -/
lemma streamLoop_spec :
    ∀ (lines : List StreamLine) (ft : Option ℚ) (tok : ℕ),
      streamLoop lines ft tok =
        ((match ft with
          | some t => some t
          | none =>
            (((lines.takeWhile (fun l => !isDoneLine l.text)).find?
              (fun l => isPayloadLine l.text)).map (fun l => l.time))),
         tok + ((lines.takeWhile (fun l => !isDoneLine l.text)).filter
           (fun l => isPayloadLine l.text)).length) := by
  intro lines
  induction lines with
  | nil =>
    intro ft tok
    cases ft
    all_goals simp [streamLoop]
  | cons l rest ih =>
    intro ft tok
    cases hskip : (pyStrip l.text == "" || pyStartsWith (pyStrip l.text) ":") with
    | true =>
      have hnd : pyStartsWith (pyStrip l.text) "data: " = false := skip_line_not_data hskip
      have hp : isPayloadLine l.text = false := by simp [isPayloadLine, hnd]
      have hd : isDoneLine l.text = false := by simp [isDoneLine, hnd]
      simp only [streamLoop, hskip, if_true, ite_true]
      rw [ih ft tok]
      rw [List.takeWhile_cons, if_pos (by simp [hd])]
      rw [List.find?_cons_of_neg _ (by simp [hp]), List.filter_cons_of_neg (by simp [hp])]
    | false =>
      cases hdata : pyStartsWith (pyStrip l.text) "data: " with
      | false =>
        have hp : isPayloadLine l.text = false := by simp [isPayloadLine, hdata]
        have hd : isDoneLine l.text = false := by simp [isDoneLine, hdata]
        simp only [streamLoop, hskip, hdata, Bool.false_eq_true, if_false, ite_false]
        rw [ih ft tok]
        rw [List.takeWhile_cons, if_pos (by simp [hd])]
        rw [List.find?_cons_of_neg _ (by simp [hp]), List.filter_cons_of_neg (by simp [hp])]
      | true =>
        cases hdone : (pyDrop (pyStrip l.text) 6 == "[DONE]") with
        | true =>
          have hd : isDoneLine l.text = true := by simp [isDoneLine, hdata, hdone]
          simp only [streamLoop, hskip, hdata, hdone, Bool.false_eq_true, if_false,
            ite_false, if_true, ite_true]
          rw [List.takeWhile_cons, if_neg (by simp [hd])]
          cases ft
          all_goals simp
        | false =>
          have hne : ¬ (pyDrop (pyStrip l.text) 6 = "[DONE]") := by
            intro hcontra
            rw [hcontra] at hdone
            simp at hdone
          have hp : isPayloadLine l.text = true := by simp [isPayloadLine, hdata, hne]
          have hd : isDoneLine l.text = false := by simp [isDoneLine, hdone]
          simp only [streamLoop, hskip, hdata, hdone, Bool.false_eq_true, if_false,
            ite_false, if_true, ite_true]
          rw [ih]
          rw [List.takeWhile_cons, if_pos (by simp [hd])]
          simp only [List.find?_cons, List.filter_cons, hp, if_true, ite_true]
          cases ft
          all_goals simp
          all_goals omega

end Bench

namespace Bench

/-- C1: with at least one success and strictly positive duration,
calculate_aggregated_metrics returns (without error) the record whose
averages are arithmetic means over successes, throughput = successes / D,
total_tokens the sum over successes, token_throughput = total_tokens / D,
success_rate = 100·successes/all, lying in [0,100], and num_requests the
count of all records. -/
theorem aggregated_metrics_success_case
    (ms : List RequestMetrics) (c : ℕ) (D : ℚ)
    (hs : ∃ m ∈ ms, m.success) (hD : 0 < D) :
    calculate_aggregated_metrics ms c D =
      .ok { concurrency := c,
            avg_ttft := ((ms.filter (fun m => m.success)).map (fun m => m.ttft)).sum
              / (ms.filter (fun m => m.success)).length,
            avg_latency := ((ms.filter (fun m => m.success)).map (fun m => m.latency)).sum
              / (ms.filter (fun m => m.success)).length,
            throughput := ((ms.filter (fun m => m.success)).length : ℚ) / D,
            total_tokens := ((ms.filter (fun m => m.success)).map
              (fun m => m.tokens_generated)).sum,
            token_throughput :=
              (((ms.filter (fun m => m.success)).map (fun m => m.tokens_generated)).sum : ℚ) / D,
            success_rate := 100 * ((ms.filter (fun m => m.success)).length : ℚ) / ms.length,
            num_requests := ms.length } ∧
      0 ≤ 100 * ((ms.filter (fun m => m.success)).length : ℚ) / ms.length ∧
      100 * ((ms.filter (fun m => m.success)).length : ℚ) / ms.length ≤ 100 := by
  have hne : ms.filter (fun m => m.success) ≠ [] := filter_success_ne_nil hs
  have hslen : 0 < (ms.filter (fun m => m.success)).length :=
    List.length_pos.mpr hne
  have hmslen : 0 < ms.length := lt_of_lt_of_le hslen (filter_length_le ms)
  have hsQ : ((ms.filter (fun m => m.success)).length : ℚ) ≠ 0 := by
    exact_mod_cast hslen.ne'
  have hmQ : ((ms.length : ℚ)) ≠ 0 := by
    exact_mod_cast hmslen.ne'
  refine ⟨?_, ?_, ?_⟩
  · unfold calculate_aggregated_metrics
    simp only [List.isEmpty_iff, hne, if_false, ite_false]
    rw [pydiv_ok hsQ, except_bind_ok, pydiv_ok hsQ, except_bind_ok,
      pydiv_ok hD.ne', except_bind_ok, pydiv_ok hD.ne', except_bind_ok,
      pydiv_ok hmQ, except_bind_ok]
    have hsr : ((ms.filter (fun m => m.success)).length : ℚ) / (ms.length : ℚ) * 100
        = 100 * ((ms.filter (fun m => m.success)).length : ℚ) / ms.length := by
      ring
    congr 1
    all_goals simp [hsr, Function.comp_def]
  · positivity
  · rw [mul_div_assoc]
    have h1 : ((ms.filter (fun m => m.success)).length : ℚ) / ms.length ≤ 1 := by
      rw [div_le_one (by exact_mod_cast hmslen)]
      exact_mod_cast filter_length_le ms
    nlinarith

/-- Witness for C1 at a concrete input. -/
theorem aggregated_metrics_success_case_witness :
    (∃ m ∈ [RequestMetrics.mk 1 2 5 true none,
            RequestMetrics.mk 0 0 0 false (some "boom"),
            RequestMetrics.mk 3 4 7 true none], m.success) ∧
    (0 : ℚ) < 2 ∧
    calculate_aggregated_metrics
      [RequestMetrics.mk 1 2 5 true none,
       RequestMetrics.mk 0 0 0 false (some "boom"),
       RequestMetrics.mk 3 4 7 true none] 4 2 =
      .ok { concurrency := 4, avg_ttft := 2, avg_latency := 3,
            throughput := 1, total_tokens := 12, token_throughput := 6,
            success_rate := 200 / 3, num_requests := 3 } := by
  refine ⟨by decide, by norm_num, ?_⟩
  have h := (aggregated_metrics_success_case
    [RequestMetrics.mk 1 2 5 true none,
     RequestMetrics.mk 0 0 0 false (some "boom"),
     RequestMetrics.mk 3 4 7 true none] 4 2 (by decide) (by norm_num)).1
  rw [h]
  congr 1
  all_goals norm_num [List.filter, List.sum]

/-- C2: when no record succeeded (including the empty list),
calculate_aggregated_metrics returns (never raising a division error) the
record with all averaged/throughput fields and success_rate zero,
num_requests = length of the input, concurrency = the given level. -/
theorem aggregated_metrics_all_failures
    (ms : List RequestMetrics) (c : ℕ) (D : ℚ)
    (h : ∀ m ∈ ms, ¬ m.success) :
    calculate_aggregated_metrics ms c D =
      .ok { concurrency := c, avg_ttft := 0, avg_latency := 0,
            throughput := 0, total_tokens := 0, token_throughput := 0,
            success_rate := 0, num_requests := ms.length } := by
  have hnil : ms.filter (fun m => m.success) = [] := by
    apply List.filter_eq_nil_iff.mpr
    intro m hm
    simpa using h m hm
  unfold calculate_aggregated_metrics
  simp [hnil]

/-- Witness for C2 at a concrete input. -/
theorem aggregated_metrics_all_failures_witness :
    (∀ m ∈ [RequestMetrics.mk 0 0 0 false (some "x")], ¬ m.success) ∧
    calculate_aggregated_metrics [RequestMetrics.mk 0 0 0 false (some "x")] 2 0 =
      .ok { concurrency := 2, avg_ttft := 0, avg_latency := 0,
            throughput := 0, total_tokens := 0, token_throughput := 0,
            success_rate := 0, num_requests := 1 } :=
  ⟨by decide, aggregated_metrics_all_failures _ 2 0 (by decide)⟩

/-- C3: for concurrency C ≥ 1 (and a non-empty prompt corpus, which the
configuration guarantees), run_concurrent_requests partitions its N requests
into sequential waves of size min(C, N − already issued), e.g. waves [3,3,1]
for N=7, C=3, and returns a list of exactly N RequestMetrics for every
outcome function (a failing request never aborts the batch: outcomes are
arbitrary and every slot contributes exactly one record). -/
theorem run_concurrent_requests_waves
    (prompts : List String) (C N : ℕ) (result : ℕ → RequestMetrics)
    (hC : 1 ≤ C) (hp : prompts ≠ []) :
    run_concurrent_requests prompts C N result =
      .ok (runWaves result 0 (waveSizes C N)) ∧
    (runWaves result 0 (waveSizes C N)).length = N ∧
    (∀ k (hk : k < (waveSizes C N).length),
      (waveSizes C N).get ⟨k, hk⟩ =
        min C (N - ((waveSizes C N).take k).sum)) ∧
    waveSizes 3 7 = [3, 3, 1] := by
  have h371 : waveSizes 3 7 = [3, 3, 1] := by
    rw [waveSizes, dif_neg (by omega)]
    rw [waveSizes, dif_neg (by omega)]
    rw [waveSizes, dif_neg (by omega)]
    rw [waveSizes, dif_pos (by omega)]
    norm_num
  refine ⟨run_concurrent_ok N result hC hp, ?_, ?_, h371⟩
  · rw [runWaves_length, waveSizes_sum hC]
  · intro k hk
    rw [← List.getD_eq_get _ 0 hk, waveSizes_getD hC]

/-- Witness for C3 at concrete inputs N=7, C=3. -/
theorem run_concurrent_requests_waves_witness :
    1 ≤ 3 ∧ (["p"] : List String) ≠ [] ∧
    run_concurrent_requests ["p"] 3 7 (fun _ => RequestMetrics.mk 0 0 0 false none) =
      .ok (runWaves (fun _ => RequestMetrics.mk 0 0 0 false none) 0 (waveSizes 3 7)) ∧
    (runWaves (fun _ => RequestMetrics.mk 0 0 0 false none) 0 (waveSizes 3 7)).length = 7 := by
  have h := run_concurrent_requests_waves ["p"] 3 7
    (fun _ => RequestMetrics.mk 0 0 0 false none) (by omega) (by simp)
  exact ⟨by omega, by simp, h.1, h.2.1⟩

/-- C4 counterexample: a stream that completes normally (the loop ends at
the data: [DONE] terminator) but carries a further payload line after the
terminator.  The counter is 1, while the number of stream-data lines with a
non-terminator payload in the whole stream is 2: the count as claimed, over
all lines of the stream, does not match the code, which stops counting at
the terminator. -/
theorem send_single_request_count_counterexample :
    (send_single_request 0 10 (.resp 200 ""
      (.ok [StreamLine.mk "data: a" 1, StreamLine.mk "data: [DONE]" 2,
            StreamLine.mk "data: b" 3]))).tokens_generated = 1 ∧
    (([StreamLine.mk "data: a" 1, StreamLine.mk "data: [DONE]" 2,
       StreamLine.mk "data: b" 3]).filter
        (fun l => isPayloadLine l.text)).length = 2 := by
  constructor
  · rfl
  · rfl

/-- C4 (amended): on normal stream completion the returned RequestMetrics
has success=true and no failure detail; its units-generated counter equals
exactly the number of lines prefixed with the stream-data marker whose
payload is not the [DONE] sentinel among the lines preceding the first
terminator line (blank lines, comment-prefixed lines and lines without the
marker are skipped without effect; the terminator ends the loop without
error, so later lines do not count); its time-to-first-unit is the first
such payload line timestamp minus the start timestamp, or zero if no
payload line was seen; and its latency is the end timestamp minus the start
timestamp.  The hypotheses state that perf_counter is non-negative and
monotone (each line is processed after the start timestamp was taken). -/
theorem send_single_request_stream_ok
    (start_time end_time : ℚ) (body : String) (lines : List StreamLine)
    (hstart : 0 ≤ start_time)
    (hmono : ∀ l ∈ lines, start_time ≤ l.time) :
    send_single_request start_time end_time (.resp 200 body (.ok lines)) =
      { ttft :=
          match (lines.takeWhile (fun l => !isDoneLine l.text)).find?
              (fun l => isPayloadLine l.text) with
          | none => 0
          | some l => l.time - start_time,
        latency := end_time - start_time,
        tokens_generated :=
          (((lines.takeWhile (fun l => !isDoneLine l.text)).filter
            (fun l => isPayloadLine l.text)).length : ℤ),
        success := true, error := none } := by
  simp only [send_single_request]
  rw [if_neg (by omega)]
  rw [streamLoop_spec lines none 0]
  cases hfind : (lines.takeWhile (fun l => !isDoneLine l.text)).find?
      (fun l => isPayloadLine l.text) with
  | none => simp [hfind]
  | some l =>
    have hmem : l ∈ lines :=
      (List.takeWhile_sublist _).subset (List.mem_of_find?_eq_some hfind)
    have htime : start_time ≤ l.time := hmono l hmem
    simp only [hfind, Option.map_some, Nat.zero_add]
    congr 1
    by_cases hz : l.time = 0
    · have hs0 : start_time = 0 := le_antisymm (hz ▸ htime) hstart
      simp [hz, hs0]
    · simp [hz]

/-- Witness for the amended C4 at a concrete stream. -/
theorem send_single_request_stream_ok_witness :
    (0 : ℚ) ≤ 1 ∧
    (∀ l ∈ [StreamLine.mk "data: hello" 2, StreamLine.mk "" 3,
            StreamLine.mk ": keepalive" 3, StreamLine.mk "event: x" 3,
            StreamLine.mk "data: world" 4, StreamLine.mk "data: [DONE]" 5],
      (1 : ℚ) ≤ l.time) ∧
    send_single_request 1 6 (.resp 200 ""
      (.ok [StreamLine.mk "data: hello" 2, StreamLine.mk "" 3,
            StreamLine.mk ": keepalive" 3, StreamLine.mk "event: x" 3,
            StreamLine.mk "data: world" 4, StreamLine.mk "data: [DONE]" 5])) =
      { ttft := 1, latency := 5, tokens_generated := 2,
        success := true, error := none } := by
  refine ⟨by norm_num, by decide, ?_⟩
  rw [send_single_request_stream_ok 1 6 ""
    [StreamLine.mk "data: hello" 2, StreamLine.mk "" 3,
     StreamLine.mk ": keepalive" 3, StreamLine.mk "event: x" 3,
     StreamLine.mk "data: world" 4, StreamLine.mk "data: [DONE]" 5]
    (by norm_num) (by decide)]
  have hfind : List.find? (fun l => isPayloadLine l.text)
      (List.takeWhile (fun l => !isDoneLine l.text)
        [StreamLine.mk "data: hello" 2, StreamLine.mk "" 3,
         StreamLine.mk ": keepalive" 3, StreamLine.mk "event: x" 3,
         StreamLine.mk "data: world" 4, StreamLine.mk "data: [DONE]" 5]) =
      some (StreamLine.mk "data: hello" 2) := rfl
  have hlen : (List.filter (fun l => isPayloadLine l.text)
      (List.takeWhile (fun l => !isDoneLine l.text)
        [StreamLine.mk "data: hello" 2, StreamLine.mk "" 3,
         StreamLine.mk ": keepalive" 3, StreamLine.mk "event: x" 3,
         StreamLine.mk "data: world" 4, StreamLine.mk "data: [DONE]" 5])).length = 2 := rfl
  rw [hfind, hlen]
  norm_num

/-- C5: every exception raised while sending the request or while reading
the stream is caught and converted into the zeroed failure record carrying
the error text; the embedding is a total function into RequestMetrics, so
no exception of the request/stream handling reaches the caller. -/
theorem send_single_request_catches_exceptions :
    (∀ (start_time end_time : ℚ) (msg : String),
      send_single_request start_time end_time (.exn msg) =
        { ttft := 0, latency := 0, tokens_generated := 0,
          success := false, error := some msg }) ∧
    (∀ (start_time end_time : ℚ) (body : String)
        (linesRead : List StreamLine) (msg : String),
      send_single_request start_time end_time (.resp 200 body (.exn linesRead msg)) =
        { ttft := 0, latency := 0, tokens_generated := 0,
          success := false, error := some msg }) := by
  constructor
  · intro s e msg
    rfl
  · intro s e b lr msg
    simp [send_single_request]

/-- C6: a response with a non-success HTTP status (in particular any status
other than 200, which is how the source tests it) yields, with no retry,
the failure record whose detail is the string HTTP status: body — which
contains both the status code and the body as substrings. -/
theorem send_single_request_http_error
    (start_time end_time : ℚ) (status : ℕ) (body : String) (stream : StreamRead)
    (h : ¬ (200 ≤ status ∧ status < 300)) :
    send_single_request start_time end_time (.resp status body stream) =
      { ttft := 0, latency := 0, tokens_generated := 0, success := false,
        error := some ("HTTP " ++ toString status ++ ": " ++ body) } ∧
    (∃ a c, "HTTP " ++ toString status ++ ": " ++ body = a ++ toString status ++ c) ∧
    (∃ a c, "HTTP " ++ toString status ++ ": " ++ body = a ++ body ++ c) := by
  have hne : status ≠ 200 := by omega
  refine ⟨?_, ⟨"HTTP ", ": " ++ body, ?_⟩, ⟨"HTTP " ++ toString status ++ ": ", "", ?_⟩⟩
  · simp [send_single_request, hne]
  · rw [String.append_assoc]
  · rw [String.append_empty]

/-- Witness for C6: an HTTP 500 response yields success=false with a
failure detail containing the substring 500. -/
theorem send_single_request_http_error_witness :
    ¬ ((200 : ℕ) ≤ 500 ∧ (500 : ℕ) < 300) ∧
    send_single_request 0 0 (.resp 500 "Internal Server Error" (.ok [])) =
      { ttft := 0, latency := 0, tokens_generated := 0, success := false,
        error := some "HTTP 500: Internal Server Error" } ∧
    (∃ a c, ("HTTP 500: Internal Server Error" : String) = a ++ "500" ++ c) := by
  have h := send_single_request_http_error 0 0 500 "Internal Server Error"
    (.ok []) (by omega)
  have h500 : toString (500 : ℕ) = "500" := rfl
  have hlit : ("HTTP 500: Internal Server Error" : String) =
      "HTTP " ++ toString (500 : ℕ) ++ ": " ++ "Internal Server Error" := rfl
  refine ⟨by omega, ?_, ?_⟩
  · rw [h.1, hlit]
  · obtain ⟨a, c, hac⟩ := h.2.1
    exact ⟨a, c, by rw [hlit, hac, h500]⟩

/-- C7 counterexample: a strictly negative total duration passed to the
Aggregator together with one successful record is not fatal — the code
returns an ordinary AggregatedMetrics (with negative throughputs) instead
of surfacing an error. -/
theorem negative_duration_not_fatal :
    calculate_aggregated_metrics [RequestMetrics.mk 1 1 5 true none] 1 (-1) =
      .ok { concurrency := 1, avg_ttft := 1, avg_latency := 1, throughput := -1,
            total_tokens := 5, token_throughput := -5, success_rate := 100,
            num_requests := 1 } := by
  simp only [calculate_aggregated_metrics]
  norm_num [pydiv, except_bind_ok]

/-- C7 (amended): the contract violations that do surface an error
immediately are: a zero duration passed to the Aggregator when at least one
record succeeded (ZeroDivisionError); a zero concurrency level
(ValueError from range); and an empty prompt corpus when at least one
request is to be issued (IndexError, or ValueError when the concurrency is
also zero).  A negative duration, by contrast, is swallowed into the
statistics (see the counterexample), as is a zero duration when no record
succeeded (the all-zero branch returns before any division). -/
theorem contract_violation_errors :
    (∀ (ms : List RequestMetrics) (c : ℕ), (∃ m ∈ ms, m.success) →
      calculate_aggregated_metrics ms c 0 = .error .zeroDivision) ∧
    (∀ (prompts : List String) (N : ℕ) (res : ℕ → RequestMetrics),
      run_concurrent_requests prompts 0 N res = .error .valueError) ∧
    (∀ (C N : ℕ) (res : ℕ → RequestMetrics), 0 < N →
      ∃ e, run_concurrent_requests [] C N res = .error e) := by
  refine ⟨?_, ?_, ?_⟩
  · intro ms c hs
    have hne : ms.filter (fun m => m.success) ≠ [] := filter_success_ne_nil hs
    have hsQ : ((ms.filter (fun m => m.success)).length : ℚ) ≠ 0 := by
      exact_mod_cast (List.length_pos.mpr hne).ne'
    unfold calculate_aggregated_metrics
    simp only [List.isEmpty_iff, hne, if_false, ite_false]
    rw [pydiv_ok hsQ, except_bind_ok, pydiv_ok hsQ, except_bind_ok]
    have hz : pydiv ((ms.filter (fun m => m.success)).length : ℚ) 0 =
        .error .zeroDivision := by simp [pydiv]
    rw [hz, except_bind_error]
  · intro prompts N res
    unfold run_concurrent_requests
    rw [if_pos rfl]
  · intro C N res hN
    unfold run_concurrent_requests
    by_cases hC : C = 0
    · exact ⟨.valueError, by rw [if_pos hC]⟩
    · exact ⟨.indexError, by rw [if_neg hC, if_pos ⟨rfl, hN⟩]⟩

/-- Witness for the amended C7 at concrete inputs. -/
theorem contract_violation_errors_witness :
    calculate_aggregated_metrics [RequestMetrics.mk 1 1 5 true none] 1 0 =
      .error .zeroDivision ∧
    run_concurrent_requests ["p"] 0 3 (fun _ => RequestMetrics.mk 0 0 0 false none) =
      .error .valueError ∧
    ∃ e, run_concurrent_requests [] 2 3 (fun _ => RequestMetrics.mk 0 0 0 false none) =
      .error e :=
  ⟨contract_violation_errors.1 [RequestMetrics.mk 1 1 5 true none] 1 (by decide),
   contract_violation_errors.2.1 ["p"] 3 _,
   contract_violation_errors.2.2 2 3 _ (by omega)⟩

lemma calc_agg_isOk (ms : List RequestMetrics) (c : ℕ) {D : ℚ} (hD : 0 < D) :
    ∃ a, calculate_aggregated_metrics ms c D = .ok a := by
  by_cases hne : ms.filter (fun m => m.success) = []
  · refine ⟨AggregatedMetrics.mk c 0 0 0 0 0 0 ms.length, ?_⟩
    unfold calculate_aggregated_metrics
    simp [hne]
  · have hslen : 0 < (ms.filter (fun m => m.success)).length :=
      List.length_pos.mpr hne
    have hsQ : ((ms.filter (fun m => m.success)).length : ℚ) ≠ 0 := by
      exact_mod_cast hslen.ne'
    have hmQ : ((ms.length : ℚ)) ≠ 0 := by
      have := lt_of_lt_of_le hslen (filter_length_le ms)
      exact_mod_cast this.ne'
    cases hcase : calculate_aggregated_metrics ms c D with
    | ok a => exact ⟨a, rfl⟩
    | error e =>
      unfold calculate_aggregated_metrics at hcase
      simp only [List.isEmpty_iff, hne, if_false, ite_false] at hcase
      rw [pydiv_ok hsQ, except_bind_ok, pydiv_ok hsQ, except_bind_ok,
        pydiv_ok hD.ne', except_bind_ok, pydiv_ok hD.ne', except_bind_ok,
        pydiv_ok hmQ, except_bind_ok] at hcase
      exact Except.noConfusion hcase

lemma benchLevels_ok (prompts : List String) (rpl : ℕ)
    (res : ℕ → ℕ → RequestMetrics) (dur : ℕ → ℚ) (hp : prompts ≠ []) :
    ∀ levels : List ℕ, (∀ c ∈ levels, 1 ≤ c) → (∀ c ∈ levels, 0 < dur c) →
      ∃ tbl, benchLevels prompts rpl res dur levels = .ok tbl ∧
        tbl.map Prod.fst = levels ∧
        ∀ c agg, (c, agg) ∈ tbl →
          calculate_aggregated_metrics (runWaves (res c) 0 (waveSizes c rpl))
            c (dur c) = .ok agg := by
  intro levels
  induction levels with
  | nil =>
    intro _ _
    exact ⟨[], rfl, rfl, by simp⟩
  | cons c rest ih =>
    intro h1 h2
    obtain ⟨tbl, htbl, hmap, hmem⟩ :=
      ih (fun x hx => h1 x (List.mem_cons_of_mem _ hx))
         (fun x hx => h2 x (List.mem_cons_of_mem _ hx))
    obtain ⟨agg, hagg⟩ :=
      calc_agg_isOk (runWaves (res c) 0 (waveSizes c rpl)) c
        (h2 c (List.mem_cons_self _ _))
    refine ⟨(c, agg) :: tbl, ?_, by simp [hmap], ?_⟩
    · simp only [benchLevels]
      rw [run_concurrent_ok rpl (res c) (h1 c (List.mem_cons_self _ _)) hp,
        except_bind_ok, hagg, except_bind_ok, htbl, except_bind_ok]
      rfl
    · intro c2 agg2 hmem2
      rcases List.mem_cons.mp hmem2 with h | h
      · obtain ⟨h3, h4⟩ := Prod.mk.injEq .. ▸ h
        subst h3
        subst h4
        exact hagg
      · exact hmem c2 agg2 h

/-- C8: with a non-empty prompt corpus, positive distinct concurrency
levels, and positive measured durations, benchmark_engine returns for the
engine a result table whose keys are exactly the configured ordered list of
levels (so any two engines run over the same configuration get identical
keys), where each entry is the Aggregator output for that level batch
only, and whose value does not depend on the warmup batch outcomes at all
(the warmup metrics are discarded).  The distinctness hypothesis is what
makes the association-list model coincide with the Python dict. -/
theorem benchmark_engine_table
    (prompts : List String) (levels : List ℕ) (rpl warmup : ℕ)
    (wres : ℕ → RequestMetrics) (res : ℕ → ℕ → RequestMetrics) (dur : ℕ → ℚ)
    (hp : prompts ≠ []) (hlev : ∀ c ∈ levels, 1 ≤ c)
    (hdur : ∀ c ∈ levels, 0 < dur c) (hnodup : levels.Nodup) :
    ∃ tbl, benchmark_engine prompts levels rpl warmup wres res dur = .ok tbl ∧
      tbl.map Prod.fst = levels ∧
      (∀ c agg, (c, agg) ∈ tbl →
        calculate_aggregated_metrics (runWaves (res c) 0 (waveSizes c rpl))
          c (dur c) = .ok agg) ∧
      (∀ wres2, benchmark_engine prompts levels rpl warmup wres2 res dur =
        benchmark_engine prompts levels rpl warmup wres res dur) := by
  obtain ⟨tbl, htbl, hmap, hmem⟩ := benchLevels_ok prompts rpl res dur hp levels hlev hdur
  refine ⟨tbl, ?_, hmap, hmem, ?_⟩
  · unfold benchmark_engine
    rw [run_concurrent_ok warmup wres (by omega) hp, except_bind_ok]
    exact htbl
  · intro wres2
    unfold benchmark_engine
    rw [run_concurrent_ok warmup wres2 (by omega) hp, except_bind_ok,
      run_concurrent_ok warmup wres (by omega) hp, except_bind_ok]

/-- Witness for C8 at a concrete configuration (levels [1,2], one request
per level, no warmup). -/
theorem benchmark_engine_table_witness :
    (["p"] : List String) ≠ [] ∧ (∀ c ∈ [1, 2], 1 ≤ c) ∧
    (∀ c ∈ ([1, 2] : List ℕ), (0 : ℚ) < (fun _ => (1 : ℚ)) c) ∧
    ([1, 2] : List ℕ).Nodup ∧
    ∃ tbl, benchmark_engine ["p"] [1, 2] 1 0
        (fun _ => RequestMetrics.mk 0 0 0 false none)
        (fun _ _ => RequestMetrics.mk 1 1 1 true none)
        (fun _ => (1 : ℚ)) = .ok tbl ∧
      tbl.map Prod.fst = [1, 2] ∧
      (∀ c agg, (c, agg) ∈ tbl →
        calculate_aggregated_metrics
          (runWaves ((fun _ _ => RequestMetrics.mk 1 1 1 true none) c) 0
            (waveSizes c 1)) c ((fun _ => (1 : ℚ)) c) = .ok agg) ∧
      (∀ wres2, benchmark_engine ["p"] [1, 2] 1 0 wres2
          (fun _ _ => RequestMetrics.mk 1 1 1 true none) (fun _ => (1 : ℚ)) =
        benchmark_engine ["p"] [1, 2] 1 0
          (fun _ => RequestMetrics.mk 0 0 0 false none)
          (fun _ _ => RequestMetrics.mk 1 1 1 true none) (fun _ => (1 : ℚ))) := by
  refine ⟨by simp, by decide, by norm_num, by decide, ?_⟩
  exact benchmark_engine_table ["p"] [1, 2] 1 0
    (fun _ => RequestMetrics.mk 0 0 0 false none)
    (fun _ _ => RequestMetrics.mk 1 1 1 true none)
    (fun _ => (1 : ℚ)) (by simp) (by decide) (by norm_num) (by decide)

end Bench

namespace Valid

lemma argsOk_nil : argsOk [] := by
  intro p v hm
  simp at hm

lemma argsOk_cons {p : Param} {v : PyVal} {rest : List (Param × PyVal)} :
    argsOk ((p, v) :: rest) ↔
      (p.isDictStrIntHint = true →
        (v = PyVal.none ∧ p.default = some PyVal.none) ∨
          isValidDictStrInt v = true) ∧
      argsOk rest := by
  constructor
  · intro h
    refine ⟨h p v (List.mem_cons_self _ _), ?_⟩
    intro q w hm hh
    exact h q w (List.mem_cons_of_mem _ hm) hh
  · rintro ⟨h1, h2⟩ q w hm hh
    rcases List.mem_cons.mp hm with heq | hmem
    · obtain ⟨hq, hw⟩ := Prod.mk.injEq .. ▸ heq
      subst hq
      subst hw
      exact h1 hh
    · exact h2 q w hmem hh

lemma validateEntries_ok_iff (n : String) :
    ∀ entries : List (PyVal × PyVal),
      (validateEntries n entries = .ok ()) ↔
        (entries.all (fun kv =>
          match kv with
          | (.str _, .int _) => true
          | _ => false) = true) := by
  intro entries
  induction entries with
  | nil => simp [validateEntries]
  | cons kv rest ih =>
    obtain ⟨key, val⟩ := kv
    cases key
    all_goals cases val
    all_goals simp [validateEntries, ih]

lemma validate_value_ok_iff (v : PyVal) (n : String) :
    (validate_value v n = .ok ()) ↔ isValidDictStrInt v = true := by
  cases v
  all_goals simp [validate_value, isValidDictStrInt, validateEntries_ok_iff]

lemma validateArguments_ok_iff :
    ∀ bound : List (Param × PyVal),
      (_validate_arguments bound = .ok ()) ↔ argsOk bound := by
  intro bound
  induction bound with
  | nil =>
    simp only [_validate_arguments]
    constructor
    · intro _
      exact argsOk_nil
    · intro _
      trivial
  | cons pv rest ih =>
    obtain ⟨p, v⟩ := pv
    rw [argsOk_cons]
    cases hhint : p.isDictStrIntHint with
    | false =>
      simp only [_validate_arguments, hhint, Bool.false_eq_true, if_false, ite_false]
      simp [ih]
    | true =>
      cases v with
      | none =>
        cases hd : p.default with
        | none =>
          simp [_validate_arguments, hhint, hd, validate_value, isValidDictStrInt]
        | some dv =>
          cases dv with
          | none => simp [_validate_arguments, hhint, hd, ih, isValidDictStrInt]
          | bool b => simp [_validate_arguments, hhint, hd, validate_value, isValidDictStrInt]
          | int k => simp [_validate_arguments, hhint, hd, validate_value, isValidDictStrInt]
          | str s => simp [_validate_arguments, hhint, hd, validate_value, isValidDictStrInt]
          | float q => simp [_validate_arguments, hhint, hd, validate_value, isValidDictStrInt]
          | dict es => simp [_validate_arguments, hhint, hd, validate_value, isValidDictStrInt]
      | bool b => simp [_validate_arguments, hhint, validate_value, isValidDictStrInt]
      | int k => simp [_validate_arguments, hhint, validate_value, isValidDictStrInt]
      | str s => simp [_validate_arguments, hhint, validate_value, isValidDictStrInt]
      | float q => simp [_validate_arguments, hhint, validate_value, isValidDictStrInt]
      | dict es =>
        cases hve : validateEntries p.name es with
        | error e =>
          have hnot : ¬ (es.all (fun kv =>
              match kv with
              | (.str _, .int _) => true
              | _ => false) = true) := by
            rw [← validateEntries_ok_iff p.name es, hve]
            simp
          simp [_validate_arguments, hhint, validate_value, hve, isValidDictStrInt, hnot]
        | ok u =>
          cases u
          have hall : es.all (fun kv =>
              match kv with
              | (.str _, .int _) => true
              | _ => false) = true :=
            (validateEntries_ok_iff p.name es).mp hve
          simp [_validate_arguments, hhint, validate_value, hve, isValidDictStrInt, hall, ih]

/-- C9 counterexample: a parameter annotated dict[str,int] whose declared
default is None, called with the value None: the value is not a mapping
(isValidDictStrInt is false on it), yet the wrapper raises no TypeError and
invokes the wrapped function. -/
theorem validator_none_default_counterexample :
    validate_dict_str_int (fun _ => PyVal.int 7)
      [(Param.mk "data" true (some PyVal.none), PyVal.none)] =
      .ok (PyVal.int 7) ∧
    isValidDictStrInt PyVal.none = false := by
  constructor
  · rfl
  · rfl

/-- C9 (amended): for a wrapped call, if every value bound to a
dict[str,int]-annotated parameter is either a mapping of string keys to
non-bool integer values, or the value None on a parameter whose declared
default is None (this None exemption is the correction), then the wrapped
function is invoked with the arguments unchanged; otherwise the call raises
TypeError and the wrapped function is never invoked (the error is the same
for every wrapped function). -/
theorem validate_dict_str_int_spec (bound : List (Param × PyVal)) :
    (argsOk bound →
      ∀ f, validate_dict_str_int f bound = .ok (f (bound.map Prod.snd))) ∧
    (¬ argsOk bound →
      ∃ e, ∀ f, validate_dict_str_int f bound = .error e) := by
  constructor
  · intro h f
    unfold validate_dict_str_int
    rw [(validateArguments_ok_iff bound).mpr h]
  · intro h
    cases hva : _validate_arguments bound with
    | ok u =>
      cases u
      exact absurd ((validateArguments_ok_iff bound).mp hva) h
    | error e =>
      refine ⟨e, fun f => ?_⟩
      unfold validate_dict_str_int
      rw [hva]

/-- Witness for the amended C9: a valid mapping flows through unchanged, and
an int value in place of the mapping is rejected for every wrapped
function. -/
theorem validate_dict_str_int_spec_witness :
    (argsOk [(Param.mk "data" true Option.none,
        PyVal.dict [(PyVal.str "a", PyVal.int 1)])] ∧
      validate_dict_str_int (fun _ => PyVal.int 1)
        [(Param.mk "data" true Option.none,
          PyVal.dict [(PyVal.str "a", PyVal.int 1)])] = .ok (PyVal.int 1)) ∧
    (¬ argsOk [(Param.mk "data" true Option.none, PyVal.int 3)] ∧
      ∃ e, ∀ f, validate_dict_str_int f
        [(Param.mk "data" true Option.none, PyVal.int 3)] = .error e) := by
  have hok : argsOk [(Param.mk "data" true Option.none,
      PyVal.dict [(PyVal.str "a", PyVal.int 1)])] := by
    intro p v hm hh
    rcases List.mem_cons.mp hm with heq | hmem
    · obtain ⟨hp, hv⟩ := Prod.mk.injEq .. ▸ heq
      subst hp
      subst hv
      right
      rfl
    · simp at hmem
  have hbad : ¬ argsOk [(Param.mk "data" true Option.none, PyVal.int 3)] := by
    intro h
    have h2 := h (Param.mk "data" true Option.none) (PyVal.int 3)
      (List.mem_cons_self _ _) rfl
    rcases h2 with ⟨h3, _⟩ | h4
    · exact PyVal.noConfusion h3
    · simp [isValidDictStrInt] at h4
  refine ⟨⟨hok, ?_⟩, hbad, ?_⟩
  · exact (validate_dict_str_int_spec _).1 hok _
  · exact (validate_dict_str_int_spec _).2 hbad

/-- C10: for a dict[str,int]-annotated parameter, a call binding None to it
is accepted — validation skipped and the wrapped function invoked with the
None argument — exactly when the declared default of that parameter is
None; with any other default (including no default at all) the call raises
TypeError before any wrapped function is invoked. -/
theorem validator_none_default_handling (p : Param)
    (hp : p.isDictStrIntHint = true) :
    (p.default = some PyVal.none →
      ∀ f, validate_dict_str_int f [(p, PyVal.none)] = .ok (f [PyVal.none])) ∧
    (p.default ≠ some PyVal.none →
      ∃ e, ∀ f, validate_dict_str_int f [(p, PyVal.none)] = .error e) := by
  constructor
  · intro hdef f
    unfold validate_dict_str_int _validate_arguments
    simp [hp, hdef, _validate_arguments]
  · intro hdef
    refine ⟨"Parameter " ++ p.name ++ " expected dict[str,int] got "
      ++ typeName PyVal.none, fun f => ?_⟩
    unfold validate_dict_str_int _validate_arguments
    cases hd : p.default with
    | none => simp [hp, validate_value]
    | some dv =>
      cases dv with
      | none => exact absurd hd hdef
      | bool b => simp [hp, validate_value]
      | int k => simp [hp, validate_value]
      | str s => simp [hp, validate_value]
      | float q => simp [hp, validate_value]
      | dict es => simp [hp, validate_value]

/-- Witness for C10 at concrete parameters: default None accepts None;
absent default rejects None for every wrapped function. -/
theorem validator_none_default_handling_witness :
    (Param.mk "data" true (some PyVal.none)).isDictStrIntHint = true ∧
    (Param.mk "data" true (some PyVal.none)).default = some PyVal.none ∧
    validate_dict_str_int (fun _ => PyVal.int 0)
      [(Param.mk "data" true (some PyVal.none), PyVal.none)] =
      .ok (PyVal.int 0) ∧
    (Param.mk "data" true Option.none).default ≠ some PyVal.none ∧
    ∃ e, ∀ f, validate_dict_str_int f
      [(Param.mk "data" true Option.none, PyVal.none)] = .error e := by
  refine ⟨rfl, rfl, ?_, by simp, ?_⟩
  · exact (validator_none_default_handling _ rfl).1 rfl _
  · exact (validator_none_default_handling _ rfl).2 (by simp)

end Valid
